import Mathlib

/-!
Verification of the calculation core of the AI-Matrix-Agents repository:
the cash-flow calculation engine (`archive/calculations/cash_flow_calculations.py`)
and the cost-estimation engine (`archive/calculations/estimations_calculations.py`).

Numbers are modelled as rationals (the Python code computes with floats; every
claim under study is about the exact arithmetic structure of the computations,
so exact arithmetic over ℚ is the faithful shallow embedding). Python exceptions
are modelled with `Except`: raising is returning `.error`, and the spec's error
taxonomy names (`LengthMismatchError`, `InvalidNumericInputError`) label the
error conditions at which the code raises `ValueError`.
-/

/-- Error raised by the cash-flow engine when two parallel sequences differ in
length; carries the message of the `ValueError` raised in the source. -/
inductive CalcError where
  | lengthMismatch (msg : String) : CalcError
deriving DecidableEq

/-- The error object raised by `compute_net_cash_flow` on a length mismatch. -/
def netMismatchError : CalcError :=
  .lengthMismatch "The number of inflows must equal the number of outflows."

/-- The error object raised by `apply_discount_rate` on a length mismatch. -/
def periodsMismatchError : CalcError :=
  .lengthMismatch "Length of cash_flows and periods must match"

/-- `compute_net_cash_flow(inflows, outflows)`: raises on unequal lengths,
otherwise returns the element-wise difference
(`[inflow - outflow for inflow, outflow in zip(inflows, outflows)]`). -/
def compute_net_cash_flow (inflows outflows : List ℚ) : Except CalcError (List ℚ) :=
  if inflows.length ≠ outflows.length then
    .error netMismatchError
  else
    .ok (List.zipWith (fun inflow outflow => inflow - outflow) inflows outflows)

/-- The accumulation loop of `compute_cumulative_flow`: running total `total`,
appending the updated total for each flow. -/
def cumLoop (total : ℚ) : List ℚ → List ℚ
  | [] => []
  | flow :: rest => (total + flow) :: cumLoop (total + flow) rest

/-- `compute_cumulative_flow(net_flows)`: the loop starting from `total = 0.0`. -/
def compute_cumulative_flow (net_flows : List ℚ) : List ℚ :=
  cumLoop 0 net_flows

/-- The accumulation loop of `compute_cumulative_discounted_cash_flow`
(textually a second copy of the same loop in the source). -/
def cumDiscLoop (total : ℚ) : List ℚ → List ℚ
  | [] => []
  | dc :: rest => (total + dc) :: cumDiscLoop (total + dc) rest

/-- `compute_cumulative_discounted_cash_flow(discounted_cash_flows)`. -/
def compute_cumulative_discounted_cash_flow (discounted_cash_flows : List ℚ) : List ℚ :=
  cumDiscLoop 0 discounted_cash_flows

/-- The default period indices `list(range(1, len(cash_flows) + 1))`. -/
def defaultPeriods (n : ℕ) : List ℤ :=
  (List.range n).map (fun (i : ℕ) => (i : ℤ) + 1)

/-- `apply_discount_rate(cash_flows, discount_rate, periods=None)`: fills in the
default periods, raises on a length mismatch, otherwise returns
`[cf / ((1 + discount_rate) ** period) for cf, period in zip(cash_flows, periods)]`. -/
def apply_discount_rate (cash_flows : List ℚ) (discount_rate : ℚ)
    (periods : Option (List ℤ)) : Except CalcError (List ℚ) :=
  let ps := periods.getD (defaultPeriods cash_flows.length)
  if cash_flows.length ≠ ps.length then
    .error periodsMismatchError
  else
    .ok (List.zipWith (fun cf period => cf / (1 + discount_rate) ^ period) cash_flows ps)

/-- The dictionary returned by `generate_cash_flow_statement`. -/
structure CashFlowStatement where
  net_cash_flow : List ℚ
  cumulative_cash_flow : List ℚ
  discounted_cash_flow : List ℚ
  cumulative_discounted_cash_flow : List ℚ
deriving DecidableEq

/-- `generate_cash_flow_statement(inflows, outflows, discount_rate, periods=None)`:
net → cumulative(net) → discount(net) → cumulative(discounted), propagating any
exception from the sub-steps. -/
def generate_cash_flow_statement (inflows outflows : List ℚ) (discount_rate : ℚ)
    (periods : Option (List ℤ)) : Except CalcError CashFlowStatement := do
  let net_flows ← compute_net_cash_flow inflows outflows
  let cumulative_flows := compute_cumulative_flow net_flows
  let discounted_flows ← apply_discount_rate net_flows discount_rate periods
  let cumulative_discounted := compute_cumulative_discounted_cash_flow discounted_flows
  return ⟨net_flows, cumulative_flows, discounted_flows, cumulative_discounted⟩

/-! ### Cost-estimation engine -/

/-- Error raised by the estimation engine when a quantity or unit price cannot
be coerced to a number (the `ValueError` from a failing `float(...)`). -/
inductive EstError where
  | invalidNumericInput : EstError
deriving DecidableEq

/-- A loosely-typed attribute value appearing in a line-item dictionary: a
numeric literal, a string that parses as the number it carries, or a
non-numeric string. -/
inductive AttrValue where
  | num (q : ℚ) : AttrValue
  | numStr (q : ℚ) : AttrValue
  | badStr (s : String) : AttrValue
deriving DecidableEq

/-- Python's `float(value)` on an attribute value: succeeds on numerics and
numeric strings, raises on a non-numeric string. -/
def coerceFloat : AttrValue → Except EstError ℚ
  | .num q => .ok q
  | .numStr q => .ok q
  | .badStr _ => .error .invalidNumericInput

/-- Whether `float(value)` would succeed on this attribute value. -/
def AttrValue.coercibleB : AttrValue → Bool
  | .badStr _ => false
  | _ => true

/-- The number `float(value)` returns when it succeeds (junk 0 on a
non-numeric string; only used under a coercibility hypothesis). -/
def AttrValue.coerceVal : AttrValue → ℚ
  | .num q => q
  | .numStr q => q
  | .badStr _ => 0

/-- An input line-item dictionary: each of the three keys may be absent. -/
structure LineItem where
  description : Option String
  quantity : Option AttrValue
  unit_price : Option AttrValue
deriving DecidableEq

/-- An enriched item of the output `line_items` list. -/
structure ComputedItem where
  description : String
  quantity : ℚ
  unit_price : ℚ
  line_subtotal : ℚ
deriving DecidableEq

/-- The summary dictionary returned by `generate_estimation_summary`. -/
structure EstimationSummary where
  line_items : List ComputedItem
  subtotal : ℚ
  tax : ℚ
  grand_total : ℚ
deriving DecidableEq

/-- `calculate_line_item(quantity, unit_price)`. -/
def calculate_line_item (quantity unit_price : ℚ) : ℚ := quantity * unit_price

/-- `calculate_subtotal(line_totals)`. -/
def calculate_subtotal (line_totals : List ℚ) : ℚ := line_totals.sum

/-- `calculate_tax(subtotal, tax_rate)`. -/
def calculate_tax (subtotal tax_rate : ℚ) : ℚ := subtotal * tax_rate

/-- `calculate_grand_total(subtotal, tax)`. -/
def calculate_grand_total (subtotal tax : ℚ) : ℚ := subtotal + tax

/-- The enrichment loop of `generate_estimation_summary`: for each item in
order, coerce `item.get("quantity", 0)` and `item.get("unit_price", 0)` with
`float`, compute the line subtotal, and accumulate the computed-item list and
the line-total list. -/
def processItems : List LineItem → Except EstError (List ComputedItem × List ℚ)
  | [] => .ok ([], [])
  | item :: rest => do
    let qty ← coerceFloat (item.quantity.getD (.num 0))
    let up ← coerceFloat (item.unit_price.getD (.num 0))
    let line_total := calculate_line_item qty up
    let (citems, totals) ← processItems rest
    return (⟨item.description.getD "", qty, up, line_total⟩ :: citems, line_total :: totals)

/-- `generate_estimation_summary(line_items, tax_rate)`. -/
def generate_estimation_summary (line_items : List LineItem) (tax_rate : ℚ) :
    Except EstError EstimationSummary := do
  let (computed_items, line_totals) ← processItems line_items
  let subtotal := calculate_subtotal line_totals
  let tax := calculate_tax subtotal tax_rate
  let grand_total := calculate_grand_total subtotal tax
  return ⟨computed_items, subtotal, tax, grand_total⟩

/-- `generate_estimation_summary(line_items)` with the `tax_rate` argument left
to its declared default `0.0`. -/
def generate_estimation_summary_default (line_items : List LineItem) :
    Except EstError EstimationSummary :=
  generate_estimation_summary line_items 0

/-! ### Spec-side characterisations -/

/-- Spec-side prefix sums: element `i` is the sum of the input elements at
indices `0..i`. -/
def specPrefixSums (l : List ℚ) : List ℚ :=
  (List.range l.length).map (fun i => (l.take (i + 1)).sum)

/-- Spec-side coercibility of one line item: both `quantity` and `unit_price`
(after defaulting a missing key to `0`) coerce to numbers. -/
def itemCoercible (it : LineItem) : Prop :=
  (it.quantity.getD (.num 0)).coercibleB = true ∧
    (it.unit_price.getD (.num 0)).coercibleB = true

instance (it : LineItem) : Decidable (itemCoercible it) := by
  unfold itemCoercible; infer_instance

/-- Spec-side enrichment of one line item: the description (defaulted to the
empty string), the coerced quantity and unit price (missing keys default to 0),
and their product as the line subtotal. -/
def enrichItem (it : LineItem) : ComputedItem :=
  ⟨it.description.getD "",
   (it.quantity.getD (.num 0)).coerceVal,
   (it.unit_price.getD (.num 0)).coerceVal,
   (it.quantity.getD (.num 0)).coerceVal * (it.unit_price.getD (.num 0)).coerceVal⟩

/-! ### Helper lemmas -/

lemma cumLoop_eq_map (t : ℚ) (l : List ℚ) :
    cumLoop t l = (specPrefixSums l).map (fun s => t + s) := by
  induction l generalizing t with
  | nil => simp [cumLoop, specPrefixSums]
  | cons x xs ih =>
      rw [cumLoop, ih]
      simp only [specPrefixSums, List.length_cons, List.range_succ_eq_map,
        List.map_cons, List.map_map]
      refine congrArg₂ List.cons ?_ ?_
      · simp
      · apply List.map_congr_left
        intro i _
        simp [Function.comp, List.take_succ_cons, List.sum_cons, add_assoc]

lemma compute_cumulative_flow_eq_spec (l : List ℚ) :
    compute_cumulative_flow l = specPrefixSums l := by
  rw [compute_cumulative_flow, cumLoop_eq_map]
  simp

lemma cumDiscLoop_eq_cumLoop (t : ℚ) (l : List ℚ) :
    cumDiscLoop t l = cumLoop t l := by
  induction l generalizing t with
  | nil => rfl
  | cons x xs ih => rw [cumDiscLoop, cumLoop, ih]

lemma specPrefixSums_length (l : List ℚ) : (specPrefixSums l).length = l.length := by
  simp [specPrefixSums]

lemma cumLoop_getLast? (t : ℚ) (l : List ℚ) :
    (cumLoop t l).getLast? = if l.isEmpty then none else some (t + l.sum) := by
  induction l generalizing t with
  | nil => rfl
  | cons x xs ih =>
      cases xs with
      | nil => simp [cumLoop]
      | cons y ys =>
          show ((t + x) :: cumLoop (t + x) (y :: ys)).getLast? = _
          have hcons : cumLoop (t + x) (y :: ys) = (t + x + y) :: cumLoop (t + x + y) ys := rfl
          rw [hcons, List.getLast?_cons_cons, ← hcons, ih]
          simp [add_assoc]

lemma defaultPeriods_length (n : ℕ) : (defaultPeriods n).length = n := by
  rw [defaultPeriods, List.length_map, List.length_range]

lemma compute_net_ok (inflows outflows : List ℚ) (hlen : inflows.length = outflows.length) :
    compute_net_cash_flow inflows outflows =
      .ok (List.zipWith (fun inflow outflow => inflow - outflow) inflows outflows) := by
  simp [compute_net_cash_flow, hlen]

lemma apply_discount_ok (l : List ℚ) (r : ℚ) (popt : Option (List ℤ))
    (hp : ∀ ps, popt = some ps → ps.length = l.length) :
    apply_discount_rate l r popt =
      .ok (List.zipWith (fun cf period => cf / (1 + r) ^ period) l
        (popt.getD (defaultPeriods l.length))) := by
  have hlen : l.length = (popt.getD (defaultPeriods l.length)).length := by
    cases popt with
    | none => simp [defaultPeriods_length]
    | some ps => simp [(hp ps rfl).symm]
  simp [apply_discount_rate, ← hlen]

lemma zipWith_const_left (l : List ℚ) (ps : List ℤ) (f : ℚ → ℚ)
    (hlen : l.length = ps.length) :
    List.zipWith (fun cf _ => f cf) l ps = l.map f := by
  induction l generalizing ps with
  | nil => simp
  | cons x xs ih =>
      cases ps with
      | nil => simp at hlen
      | cons p pr =>
          simp only [List.zipWith_cons_cons, List.map_cons]
          rw [ih pr (by simpa using hlen)]

lemma zipWith_replicate_left (f : ℚ → ℤ → ℚ) (c : ℚ) (ps : List ℤ) :
    List.zipWith f (List.replicate ps.length c) ps = ps.map (f c) := by
  induction ps with
  | nil => rfl
  | cons p pr ih => simp [List.replicate_succ, ih]

lemma coerceFloat_ok (v : AttrValue) (h : v.coercibleB = true) :
    coerceFloat v = .ok v.coerceVal := by
  cases v with
  | num q => rfl
  | numStr q => rfl
  | badStr s => simp [AttrValue.coercibleB] at h

lemma coerceFloat_err (v : AttrValue) (h : v.coercibleB = false) :
    coerceFloat v = .error .invalidNumericInput := by
  cases v with
  | num q => simp [AttrValue.coercibleB] at h
  | numStr q => simp [AttrValue.coercibleB] at h
  | badStr s => rfl

lemma processItems_ok : ∀ items : List LineItem, (∀ it ∈ items, itemCoercible it) →
    processItems items =
      .ok (items.map enrichItem, items.map (fun it => (enrichItem it).line_subtotal))
  | [], _ => rfl
  | item :: rest, h => by
      have hit : itemCoercible item := h item (List.mem_cons_self item rest)
      have hrest := processItems_ok rest (fun it hm => h it (List.mem_cons_of_mem item hm))
      simp [processItems, coerceFloat_ok _ hit.1, coerceFloat_ok _ hit.2, hrest,
        enrichItem, calculate_line_item, Bind.bind, Except.bind, Functor.map,
        Except.map, Pure.pure, Except.pure]

lemma processItems_err : ∀ items : List LineItem, (∃ it ∈ items, ¬ itemCoercible it) →
    processItems items = .error .invalidNumericInput
  | [], h => absurd h (by simp)
  | item :: rest, h => by
      by_cases hit : itemCoercible item
      · have hrest : ∃ it ∈ rest, ¬ itemCoercible it := by
          obtain ⟨it, hm, hbad⟩ := h
          rcases List.mem_cons.mp hm with heq | hm2
          · exact absurd (heq ▸ hit) hbad
          · exact ⟨it, hm2, hbad⟩
        simp [processItems, coerceFloat_ok _ hit.1, coerceFloat_ok _ hit.2,
          processItems_err rest hrest, Bind.bind, Except.bind, Functor.map,
          Except.map, Pure.pure, Except.pure]
      · rw [itemCoercible, not_and_or] at hit
        cases hq : (item.quantity.getD (.num 0)).coercibleB with
        | false =>
            simp [processItems, coerceFloat_err _ hq, Bind.bind, Except.bind,
              Functor.map, Except.map, Pure.pure, Except.pure]
        | true =>
            have hup : (item.unit_price.getD (.num 0)).coercibleB = false := by
              rcases hit with h1 | h2
              · exact absurd hq h1
              · exact Bool.not_eq_true _ ▸ h2
            simp [processItems, coerceFloat_ok _ hq, coerceFloat_err _ hup,
              Bind.bind, Except.bind, Functor.map, Except.map, Pure.pure, Except.pure]

lemma generate_estimation_ok (items : List LineItem) (tax_rate : ℚ)
    (h : ∀ it ∈ items, itemCoercible it) :
    generate_estimation_summary items tax_rate =
      .ok ⟨items.map enrichItem,
           (items.map (fun it => (enrichItem it).line_subtotal)).sum,
           (items.map (fun it => (enrichItem it).line_subtotal)).sum * tax_rate,
           (items.map (fun it => (enrichItem it).line_subtotal)).sum +
             (items.map (fun it => (enrichItem it).line_subtotal)).sum * tax_rate⟩ := by
  simp [generate_estimation_summary, processItems_ok items h, Bind.bind, Except.bind,
    Pure.pure, Except.pure, calculate_subtotal, calculate_tax, calculate_grand_total]

/-! ### Claim theorems -/

/-- C2: for every list of line items whose quantity and unit_price coerce to
numbers, `generate_estimation_summary` returns a summary whose enriched
line items appear in input order with the coerced values, defaults for missing
keys, and `line_subtotal = quantity * unit_price`; whose subtotal is the sum of
the line subtotals; whose tax is `subtotal * tax_rate`; and whose grand total is
`subtotal + tax`; an empty input yields all-zero totals. -/
theorem generate_estimation_summary_spec (items : List LineItem) (tax_rate : ℚ)
    (h : ∀ it ∈ items, itemCoercible it) :
    ∃ s, generate_estimation_summary items tax_rate = .ok s ∧
      s.line_items = items.map enrichItem ∧
      s.subtotal = (items.map (fun it => (enrichItem it).line_subtotal)).sum ∧
      s.tax = s.subtotal * tax_rate ∧
      s.grand_total = s.subtotal + s.tax ∧
      (items = [] → s.subtotal = 0 ∧ s.tax = 0 ∧ s.grand_total = 0) := by
  refine ⟨_, generate_estimation_ok items tax_rate h, rfl, rfl, rfl, rfl, ?_⟩
  intro he
  subst he
  simp

/-- Witness for C2 at the spec's worked example: two items with quantities 2, 1
and unit prices 50, 100 under a 10% tax rate give subtotal 200, tax 20 and
grand total 220. -/
theorem generate_estimation_summary_spec_witness :
    (∀ it ∈ [LineItem.mk (some "labour") (some (.num 2)) (some (.num 50)),
             LineItem.mk (some "parts") (some (.num 1)) (some (.num 100))],
        itemCoercible it) ∧
    ∃ s, generate_estimation_summary
        [LineItem.mk (some "labour") (some (.num 2)) (some (.num 50)),
         LineItem.mk (some "parts") (some (.num 1)) (some (.num 100))] (1/10) = .ok s ∧
      s.subtotal = 200 ∧ s.tax = 20 ∧ s.grand_total = 220 := by
  refine ⟨by decide, ?_⟩
  obtain ⟨s, hok, -, hsub, htax, hgt, -⟩ :=
    generate_estimation_summary_spec
      [LineItem.mk (some "labour") (some (.num 2)) (some (.num 50)),
       LineItem.mk (some "parts") (some (.num 1)) (some (.num 100))] (1/10) (by decide)
  refine ⟨s, hok, ?_, ?_, ?_⟩
  · rw [hsub]; simp [enrichItem, AttrValue.coerceVal]; norm_num
  · rw [htax, hsub]; simp [enrichItem, AttrValue.coerceVal]; norm_num
  · rw [hgt, htax, hsub]; simp [enrichItem, AttrValue.coerceVal]; norm_num

/-- C7: if some line item's quantity or unit price cannot be coerced to a
number, `generate_estimation_summary` fails with the invalid-numeric-input
error and produces no partial summary. -/
theorem invalid_numeric_input_error (items : List LineItem) (tax_rate : ℚ)
    (h : ∃ it ∈ items, ¬ itemCoercible it) :
    generate_estimation_summary items tax_rate = .error .invalidNumericInput := by
  simp [generate_estimation_summary, processItems_err items h, Bind.bind, Except.bind]

/-- Witness for C7: a line item with `unit_price: "abc"` makes the summary fail
with the invalid-numeric-input error. -/
theorem invalid_numeric_input_error_witness :
    (∃ it ∈ [LineItem.mk (some "widget") (some (.num 2)) (some (.badStr "abc"))],
        ¬ itemCoercible it) ∧
    generate_estimation_summary
        [LineItem.mk (some "widget") (some (.num 2)) (some (.badStr "abc"))] 0 =
      .error .invalidNumericInput :=
  ⟨by decide,
   invalid_numeric_input_error
     [LineItem.mk (some "widget") (some (.num 2)) (some (.badStr "abc"))] 0 (by decide)⟩

/-- C9: calling `generate_estimation_summary` without a tax rate is the same as
calling it with `tax_rate = 0`, and any successful summary at rate 0 has
`tax = 0` and `grand_total = subtotal`. -/
theorem default_tax_rate_spec (items : List LineItem) :
    generate_estimation_summary_default items = generate_estimation_summary items 0 ∧
    ∀ s, generate_estimation_summary items 0 = .ok s →
      s.tax = 0 ∧ s.grand_total = s.subtotal := by
  refine ⟨rfl, ?_⟩
  intro s hs
  cases hp : processItems items with
  | error e =>
      simp [generate_estimation_summary, hp, Bind.bind, Except.bind] at hs
  | ok pair =>
      obtain ⟨ci, lt⟩ := pair
      simp only [generate_estimation_summary, hp, Bind.bind, Except.bind, Pure.pure,
        Except.pure, calculate_subtotal, calculate_tax, calculate_grand_total,
        Except.ok.injEq] at hs
      rw [← hs]
      simp

/-- Witness for C9 at the empty item list: both calls agree, and the summary at
rate 0 (the all-zero summary) has zero tax and grand total equal to subtotal. -/
theorem default_tax_rate_spec_witness :
    generate_estimation_summary_default ([] : List LineItem) =
      generate_estimation_summary [] 0 ∧
    ((⟨[], 0, 0, 0⟩ : EstimationSummary).tax = 0 ∧
      (⟨[], 0, 0, 0⟩ : EstimationSummary).grand_total =
        (⟨[], 0, 0, 0⟩ : EstimationSummary).subtotal) :=
  ⟨(default_tax_rate_spec []).1,
   (default_tax_rate_spec []).2 ⟨[], 0, 0, 0⟩
     (by simp [generate_estimation_summary, processItems, calculate_subtotal,
       calculate_tax, calculate_grand_total, Bind.bind, Except.bind, Pure.pure,
       Except.pure])⟩

/-- C3: for equal-length inflow and outflow sequences, `compute_net_cash_flow`
returns (purely, with no side effects) a sequence of the same length whose
element `i` is `inflows[i] - outflows[i]`. -/
theorem compute_net_cash_flow_spec (inflows outflows : List ℚ)
    (hlen : inflows.length = outflows.length) :
    compute_net_cash_flow inflows outflows =
      .ok (List.zipWith (fun inflow outflow => inflow - outflow) inflows outflows) ∧
    (List.zipWith (fun inflow outflow => inflow - outflow) inflows outflows).length =
      inflows.length := by
  refine ⟨compute_net_ok _ _ hlen, ?_⟩
  simp [hlen]

/-- Witness for C3 at the spec's example: inflows [100, 200, 150] and outflows
[50, 80, 150] give net flows [50, 120, 0]. -/
theorem compute_net_cash_flow_spec_witness :
    ([(100:ℚ), 200, 150].length = [(50:ℚ), 80, 150].length) ∧
    compute_net_cash_flow [100, 200, 150] [50, 80, 150] = .ok [50, 120, 0] := by
  refine ⟨rfl, ?_⟩
  rw [(compute_net_cash_flow_spec [100, 200, 150] [50, 80, 150] rfl).1]
  simp only [Except.ok.injEq]
  norm_num [List.zipWith]

/-- C4: `compute_cumulative_flow` returns a sequence of the same length whose
element `i` is the sum of the inputs at indices `0..i` (sequential
left-to-right accumulation), so its last element is the total sum; and
`compute_cumulative_discounted_cash_flow` computes exactly the same function. -/
theorem cumulative_flow_spec (l : List ℚ) :
    compute_cumulative_flow l = specPrefixSums l ∧
    (compute_cumulative_flow l).length = l.length ∧
    (compute_cumulative_flow l).getLast? = (if l.isEmpty then none else some l.sum) ∧
    compute_cumulative_discounted_cash_flow l = compute_cumulative_flow l := by
  have h1 := compute_cumulative_flow_eq_spec l
  refine ⟨h1, ?_, ?_, ?_⟩
  · rw [h1, specPrefixSums_length]
  · rw [compute_cumulative_flow, cumLoop_getLast?]
    simp
  · rw [compute_cumulative_discounted_cash_flow, compute_cumulative_flow,
      cumDiscLoop_eq_cumLoop]

/-- C5: `apply_discount_rate` succeeds whenever the (supplied or defaulted)
period list has the length of the cash-flow list, and returns the sequence of
the same length with element `i` equal to
`cash_flows[i] / (1 + discount_rate) ** periods[i]`, the periods defaulting to
`1..N`. -/
theorem apply_discount_rate_spec (cash_flows : List ℚ) (discount_rate : ℚ)
    (popt : Option (List ℤ))
    (hp : ∀ ps, popt = some ps → ps.length = cash_flows.length) :
    ∃ ds, apply_discount_rate cash_flows discount_rate popt = .ok ds ∧
      ds.length = cash_flows.length ∧
      ds = List.zipWith (fun cf period => cf / (1 + discount_rate) ^ period) cash_flows
        (popt.getD (defaultPeriods cash_flows.length)) ∧
      ∀ i : ℕ, (defaultPeriods cash_flows.length)[i]? =
        (if i < cash_flows.length then some ((i : ℤ) + 1) else none) := by
  refine ⟨_, apply_discount_ok _ _ _ hp, ?_, rfl, ?_⟩
  · have hlen : cash_flows.length = (popt.getD (defaultPeriods cash_flows.length)).length := by
      cases popt with
      | none => simp [defaultPeriods_length]
      | some ps => simp [(hp ps rfl).symm]
    simp [← hlen]
  · intro i
    by_cases hi : i < cash_flows.length
    · rw [defaultPeriods, List.getElem?_map]
      simp [List.getElem?_range, hi]
    · rw [List.getElem?_eq_none (by simpa [defaultPeriods_length] using Nat.le_of_not_lt hi)]
      simp [hi]

/-- Witness for C5 at the spec's example: cash flows [100, 100, 100] at rate
1/10 with default periods discount to [1000/11, 10000/121, 100000/1331]. -/
theorem apply_discount_rate_spec_witness :
    (∀ ps : List ℤ, (none : Option (List ℤ)) = some ps → ps.length = 3) ∧
    ∃ ds, apply_discount_rate [(100:ℚ), 100, 100] (1/10) none = .ok ds ∧
      ds = [1000/11, 10000/121, 100000/1331] := by
  refine ⟨fun ps hps => Option.noConfusion hps, ?_⟩
  obtain ⟨ds, hok, -, hval, -⟩ :=
    apply_discount_rate_spec [(100:ℚ), 100, 100] (1/10) none
      (fun ps hps => Option.noConfusion hps)
  refine ⟨ds, hok, ?_⟩
  rw [hval]
  norm_num [defaultPeriods, List.range_succ]

/-- C10: with a discount rate of 0 (and any periods list of matching length,
including the default), `apply_discount_rate` returns its input unchanged. -/
theorem zero_discount_rate_id (cash_flows : List ℚ) (popt : Option (List ℤ))
    (hp : ∀ ps, popt = some ps → ps.length = cash_flows.length) :
    apply_discount_rate cash_flows 0 popt = .ok cash_flows := by
  rw [apply_discount_ok cash_flows 0 popt hp]
  have hlen : cash_flows.length = (popt.getD (defaultPeriods cash_flows.length)).length := by
    cases popt with
    | none => simp [defaultPeriods_length]
    | some ps => simp [(hp ps rfl).symm]
  congr 1
  have h1 : (List.zipWith (fun cf period => cf / (1 + (0:ℚ)) ^ period) cash_flows
      (popt.getD (defaultPeriods cash_flows.length))) =
      (List.zipWith (fun cf _ => id cf) cash_flows
        (popt.getD (defaultPeriods cash_flows.length))) := by
    simp only [add_zero, one_zpow, div_one, id]
  rw [h1, zipWith_const_left _ _ id hlen, List.map_id]

/-- Witness for C10: discounting [5, 7] at rate 0 with default periods returns
[5, 7] unchanged. -/
theorem zero_discount_rate_id_witness :
    (∀ ps : List ℤ, (none : Option (List ℤ)) = some ps → ps.length = 2) ∧
    apply_discount_rate [(5:ℚ), 7] 0 none = .ok [5, 7] :=
  ⟨fun ps hps => Option.noConfusion hps,
   zero_discount_rate_id [5, 7] none (fun ps hps => Option.noConfusion hps)⟩

/-- C6: `compute_net_cash_flow` fails with the length-mismatch error exactly
when the inflow and outflow lengths differ, `apply_discount_rate` fails with
the length-mismatch error when a supplied periods list has the wrong length (in
both cases no partial result is returned), and `generate_cash_flow_statement`
propagates either error unmodified. -/
theorem length_mismatch_errors (inflows outflows cash_flows : List ℚ)
    (ps ps2 : List ℤ) (r r2 r3 : ℚ) (popt : Option (List ℤ)) :
    (inflows.length ≠ outflows.length →
      compute_net_cash_flow inflows outflows = .error netMismatchError ∧
      generate_cash_flow_statement inflows outflows r popt = .error netMismatchError) ∧
    (cash_flows.length ≠ ps.length →
      apply_discount_rate cash_flows r2 (some ps) = .error periodsMismatchError) ∧
    (inflows.length = outflows.length → ps2.length ≠ inflows.length →
      generate_cash_flow_statement inflows outflows r3 (some ps2) =
        .error periodsMismatchError) := by
  refine ⟨?_, ?_, ?_⟩
  · intro h
    have hnet : compute_net_cash_flow inflows outflows = .error netMismatchError := by
      simp [compute_net_cash_flow, h]
    exact ⟨hnet, by simp [generate_cash_flow_statement, hnet, Bind.bind, Except.bind]⟩
  · intro h
    simp [apply_discount_rate, h]
  · intro hlen h2
    have hnet := compute_net_ok inflows outflows hlen
    have hnetlen :
        (List.zipWith (fun inflow outflow => inflow - outflow) inflows outflows).length =
          inflows.length := by simp [hlen]
    have hdisc : apply_discount_rate
        (List.zipWith (fun inflow outflow => inflow - outflow) inflows outflows) r3
        (some ps2) = .error periodsMismatchError := by
      simp [apply_discount_rate, hnetlen]
      omega
    simp [generate_cash_flow_statement, hnet, hdisc, Bind.bind, Except.bind]

/-- Witness for C6: `compute_net_cash_flow([1,2],[1])` and
`apply_discount_rate([1,2,3], 0.1, [1,2])` raise the length-mismatch errors,
and `generate_cash_flow_statement` surfaces both errors unmodified. -/
theorem length_mismatch_errors_witness :
    compute_net_cash_flow [(1:ℚ), 2] [1] = .error netMismatchError ∧
    generate_cash_flow_statement [(1:ℚ), 2] [1] (1/10) none = .error netMismatchError ∧
    apply_discount_rate [(1:ℚ), 2, 3] (1/10) (some [1, 2]) = .error periodsMismatchError ∧
    generate_cash_flow_statement [(1:ℚ), 2] [3, 4] (1/10) (some [1]) =
      .error periodsMismatchError := by
  have h1 := (length_mismatch_errors [(1:ℚ), 2] [1] [] [] [] (1/10) 0 0 none).1
    (by norm_num)
  have h2 := (length_mismatch_errors [] [] [(1:ℚ), 2, 3] [1, 2] [] 0 (1/10) 0 none).2.1
    (by norm_num)
  have h3 := (length_mismatch_errors [(1:ℚ), 2] [3, 4] [] [] [1] 0 0 (1/10) none).2.2
    rfl (by norm_num)
  exact ⟨h1.1, h1.2, h2, h3⟩

/-- C8: for a strictly positive discount rate, a constant strictly positive
cash-flow sequence, and the default periods, the discounted sequence is
strictly decreasing: each element is strictly greater than the next. -/
theorem discount_strict_decrease (n : ℕ) (c r : ℚ) (hr : 0 < r) (hc : 0 < c) :
    ∃ ds, apply_discount_rate (List.replicate n c) r none = .ok ds ∧
      ds.length = n ∧ List.Chain' (fun a b => b < a) ds := by
  refine ⟨_, apply_discount_ok _ _ none (fun ps hps => Option.noConfusion hps), ?_, ?_⟩
  · simp [defaultPeriods_length]
  · have hrep : (List.replicate n c).length = n := List.length_replicate n c
    rw [hrep]
    have hzip := zipWith_replicate_left (fun cf period => cf / (1 + r) ^ period) c
      (defaultPeriods n)
    rw [defaultPeriods_length] at hzip
    rw [Option.getD_none, hzip, defaultPeriods, List.map_map, List.chain'_map]
    cases n with
    | zero => simp
    | succ m =>
        rw [List.chain'_range_succ]
        intro i hi
        simp only [Function.comp]
        have h1 : (1:ℚ) < 1 + r := by linarith
        have h0 : (0:ℚ) < 1 + r := by linarith
        have hpow : (1 + r) ^ ((i : ℤ) + 1) < (1 + r) ^ (((i + 1 : ℕ) : ℤ) + 1) := by
          have e1 : ((i : ℤ) + 1) = ((i + 1 : ℕ) : ℤ) := by push_cast; ring
          have e2 : (((i + 1 : ℕ) : ℤ) + 1) = ((i + 2 : ℕ) : ℤ) := by push_cast; ring
          rw [e1, e2, zpow_natCast, zpow_natCast]
          exact pow_lt_pow_right₀ h1 (by omega)
        exact div_lt_div_of_pos_left hc (zpow_pos h0 _) hpow

/-- Witness for C8: three constant flows of 100 at rate 1/10 discount to a
sequence of length 3 that strictly decreases. -/
theorem discount_strict_decrease_witness :
    ((0:ℚ) < 1/10 ∧ (0:ℚ) < 100) ∧
    ∃ ds, apply_discount_rate (List.replicate 3 (100:ℚ)) (1/10) none = .ok ds ∧
      ds.length = 3 ∧ List.Chain' (fun a b => b < a) ds :=
  ⟨⟨by norm_num, by norm_num⟩,
   discount_strict_decrease 3 100 (1/10) (by norm_num) (by norm_num)⟩

/-- C1: for equal-length inflow and outflow sequences, any discount rate, and
an optional periods list of matching length (defaulting to 1..N),
`generate_cash_flow_statement` returns a statement whose `net_cash_flow` is the
element-wise difference, whose `cumulative_cash_flow` is the prefix sums of the
net series, whose `discounted_cash_flow` divides the net series (not the raw
inflows or outflows) by `(1 + r) ** periods[i]`, and whose
`cumulative_discounted_cash_flow` is the prefix sums of that discounted net
series. -/
theorem generate_cash_flow_statement_spec (inflows outflows : List ℚ) (r : ℚ)
    (popt : Option (List ℤ)) (hlen : inflows.length = outflows.length)
    (hp : ∀ ps, popt = some ps → ps.length = inflows.length) :
    ∃ s, generate_cash_flow_statement inflows outflows r popt = .ok s ∧
      s.net_cash_flow = List.zipWith (fun inflow outflow => inflow - outflow)
        inflows outflows ∧
      s.cumulative_cash_flow = specPrefixSums s.net_cash_flow ∧
      s.discounted_cash_flow = List.zipWith (fun cf period => cf / (1 + r) ^ period)
        s.net_cash_flow (popt.getD (defaultPeriods s.net_cash_flow.length)) ∧
      s.cumulative_discounted_cash_flow = specPrefixSums s.discounted_cash_flow := by
  have hnetlen :
      (List.zipWith (fun inflow outflow => inflow - outflow) inflows outflows).length =
        inflows.length := by simp [hlen]
  have hp2 : ∀ ps, popt = some ps →
      ps.length =
        (List.zipWith (fun inflow outflow => inflow - outflow) inflows outflows).length := by
    intro ps hps
    rw [hnetlen]
    exact hp ps hps
  refine ⟨⟨List.zipWith (fun inflow outflow => inflow - outflow) inflows outflows,
    compute_cumulative_flow
      (List.zipWith (fun inflow outflow => inflow - outflow) inflows outflows),
    List.zipWith (fun cf period => cf / (1 + r) ^ period)
      (List.zipWith (fun inflow outflow => inflow - outflow) inflows outflows)
      (popt.getD (defaultPeriods
        (List.zipWith (fun inflow outflow => inflow - outflow) inflows outflows).length)),
    compute_cumulative_discounted_cash_flow
      (List.zipWith (fun cf period => cf / (1 + r) ^ period)
        (List.zipWith (fun inflow outflow => inflow - outflow) inflows outflows)
        (popt.getD (defaultPeriods
          (List.zipWith (fun inflow outflow => inflow - outflow)
            inflows outflows).length)))⟩,
    ?_, rfl, compute_cumulative_flow_eq_spec _, rfl, ?_⟩
  · simp [generate_cash_flow_statement, compute_net_ok _ _ hlen,
      apply_discount_ok _ r popt hp2, Bind.bind, Except.bind, Pure.pure, Except.pure]
  · show cumDiscLoop 0 _ = _
    rw [cumDiscLoop_eq_cumLoop]
    exact compute_cumulative_flow_eq_spec _

/-- Witness for C1 at the spec's example: inflows [1000, 1000], outflows
[400, 500] and rate 1/20 give a statement with net flows [600, 500]. -/
theorem generate_cash_flow_statement_spec_witness :
    ([(1000:ℚ), 1000].length = [(400:ℚ), 500].length) ∧
    ∃ s, generate_cash_flow_statement [(1000:ℚ), 1000] [400, 500] (1/20) none = .ok s ∧
      s.net_cash_flow = [600, 500] := by
  refine ⟨rfl, ?_⟩
  obtain ⟨s, hok, hnet, -, -, -⟩ :=
    generate_cash_flow_statement_spec [(1000:ℚ), 1000] [400, 500] (1/20) none rfl
      (fun ps hps => Option.noConfusion hps)
  refine ⟨s, hok, ?_⟩
  rw [hnet]
  norm_num [List.zipWith]
